import Mathlib

/-!
Shallow embedding of the book-management backend
(`crud.py`, `main.py`, `schemas.py`, `db/models.py`).

Rows of the three tables (`books`, `authors`, `users`) are records; the
database state is the three row lists together with the next
auto-generated primary key of each table.  Row order in the lists models
the storage order in which an unordered `SELECT * FROM books` returns
rows.  Python exceptions are modelled by an explicit error type: an
`HTTPException(status, detail)` becomes `PyErr.http status detail`, and a
raised `AttributeError` becomes `PyErr.attributeError`.  The
nondeterministic possibility that the storage layer faults during a
commit (connection loss etc.) is modelled by an explicit `fault : Bool`
input on `create_book`, matching the source's `try/except` around
`db.add/commit`.
-/

deriving instance DecidableEq for Except

namespace BookMgmt

/-- A row of the `books` table (`db/models.py`, `DBBooks`): `genre` and
`published_year` are nullable columns, `title` and `author` are
NOT NULL; `authors_id` is a nullable foreign key into `authors`. -/
structure BookRow where
  id : Nat
  title : String
  author : String
  genre : Option String
  published_year : Option Int
  authors_id : Option Nat
  deriving Repr, DecidableEq

/-- A row of the `authors` table (`db/models.py`, `DBAuthors`). -/
structure AuthorRow where
  id : Nat
  name : String
  deriving Repr, DecidableEq

/-- A row of the `users` table (`db/models.py`, `DBUsers`). -/
structure UserRow where
  id : Nat
  username : String
  hashed_password : String
  deriving Repr, DecidableEq

/-- The persistent database state: the three tables plus the next
auto-generated primary key for each. -/
structure DBState where
  books : List BookRow
  authors : List AuthorRow
  users : List UserRow
  nextBookId : Nat
  nextAuthorId : Nat
  nextUserId : Nat
  deriving Repr, DecidableEq

/-- A raised Python exception as observed by the caller:
`HTTPException(status_code, detail)` or an `AttributeError`. -/
inductive PyErr where
  | http (status : Nat) (detail : String)
  | attributeError (msg : String)
  deriving Repr, DecidableEq

/-- `str(e)` on a modelled exception, as used by the route handlers when
they interpolate a caught exception into a new `HTTPException` detail. -/
def pyErrStr : PyErr → String
  | .http s d => toString s ++ ": " ++ d
  | .attributeError m => m

/-- ASCII upper-casing of one character, as Python's `str.upper` acts on
the ASCII genre strings used by this program. -/
def asciiUpper (c : Char) : Char :=
  if 97 ≤ c.toNat ∧ c.toNat ≤ 122 then Char.ofNat (c.toNat - 32) else c

/-- ASCII lower-casing of one character (for `ILIKE`). -/
def asciiLower (c : Char) : Char :=
  if 65 ≤ c.toNat ∧ c.toNat ≤ 90 then Char.ofNat (c.toNat + 32) else c

/-- Python `str.upper` on the ASCII strings this program handles. -/
def pyUpper (s : String) : String := ⟨s.data.map asciiUpper⟩

/-- Lower-casing of a string, used to model case-insensitive `ILIKE`. -/
def pyLower (s : String) : String := ⟨s.data.map asciiLower⟩

/-- Whether `sub` occurs as a contiguous sublist of `l`. -/
def listInfixB (sub : List Char) : List Char → Bool
  | [] => sub.isEmpty
  | c :: tl => sub.isPrefixOf (c :: tl) || listInfixB sub tl

/-- SQL `column ILIKE '%sub%'`: case-insensitive containment of `sub` in
`hay` (the substrings this program compares contain no further `%`/`_`
wildcards, so containment is the exact semantics). -/
def ilikeContains (hay sub : String) : Bool :=
  listInfixB (pyLower sub).data (pyLower hay).data

/-- Python's `f"%{x}%"` on an optional string: `None` is formatted as the
four-character string `None`. -/
def pyFormatOpt : Option String → String
  | some s => s
  | none => "None"

/-- Python whitespace characters relevant to `str.strip` here. -/
def isSpaceChar (c : Char) : Bool :=
  c == ' ' || c == '\t' || c == '\n' || c == '\r'

/-- Python `str.strip()`: drop leading and trailing whitespace. -/
def pyStrip (s : String) : String :=
  ⟨((s.data.dropWhile isSpaceChar).reverse.dropWhile isSpaceChar).reverse⟩

/-- `crud.get_all_books`: `SELECT * FROM books` — every row, in storage
order.  (Its `except` branch only re-wraps storage faults, which a plain
read does not produce in this model.) -/
def get_all_books (st : DBState) : List BookRow := st.books

/-- SQL `published_year BETWEEN :year_from AND :year_to` under
three-valued logic: a `NULL` on any side makes the condition not hold. -/
def betweenSQL (y lo hi : Option Int) : Bool :=
  match y, lo, hi with
  | some v, some l, some h => decide (l ≤ v ∧ v ≤ h)
  | _, _, _ => false

/-- SQL `genre = :genre` under three-valued logic: a `NULL` stored genre
never compares equal. -/
def genreEqSQL (stored : Option String) (param : String) : Bool :=
  match stored with
  | some g => g == param
  | none => false

/-- `crud.get_filtered_books`: builds the bound parameters exactly as the
source does — `title`/`author` become the pattern `%{x}%` (so an omitted
filter becomes the literal pattern `%None%`), `genre.upper()` raises
`AttributeError` when `genre` is `None`, omitted year bounds are bound as
SQL `NULL` — and runs the fixed query
`SELECT * FROM books WHERE title ILIKE :title AND author ILIKE :author
AND genre = :genre AND published_year BETWEEN :year_from AND :year_to
LIMIT :limit OFFSET :skip`. -/
def get_filtered_books (st : DBState) (title author genre : Option String)
    (year_from year_to : Option Int) (skip limit : Nat) :
    Except PyErr (List BookRow) :=
  match genre with
  | none => .error (.attributeError "NoneType object has no attribute upper")
  | some g =>
    let titleSub := pyFormatOpt title
    let authorSub := pyFormatOpt author
    let genreParam := pyUpper g
    let keep := fun (b : BookRow) =>
      ilikeContains b.title titleSub &&
      ilikeContains b.author authorSub &&
      genreEqSQL b.genre genreParam &&
      betweenSQL b.published_year year_from year_to
    .ok (((st.books.filter keep).drop skip).take limit)

/-- `main.retrieve_all_books` (route `GET /books/`): accepts `sort_by`
and `order` query parameters but never forwards them — the call to
`crud.get_filtered_books` passes only the filter and pagination
arguments; any exception is re-raised as `HTTPException(500, ...)`. -/
def retrieve_all_books (st : DBState) (title author genre : Option String)
    (year_from year_to : Option Int) (skip limit : Nat)
    (sort_by order : Option String) : Except PyErr (List BookRow) :=
  match get_filtered_books st title author genre year_from year_to skip limit with
  | .ok rows => .ok rows
  | .error e =>
      .error (.http 500 ("An error occurred while retrieving books: " ++ pyErrStr e))

/-- A `schemas.BookCreate` draft that already passed pydantic validation
(all four fields present and individually valid). -/
structure BookCreateDraft where
  title : String
  published_year : Int
  genre : String
  author_name : String
  deriving Repr, DecidableEq

/-- A `schemas.BookUpdate` draft: every field optional; an absent field
is simply missing from `dict(exclude_unset=True)`. -/
structure BookUpdateDraft where
  title : Option String
  published_year : Option Int
  genre : Option String
  author_name : Option String
  deriving Repr, DecidableEq

/-- A raw record of a bulk-import payload: a flat mapping that may or
may not carry each of the four book fields. -/
structure RawBookRecord where
  title : Option String
  published_year : Option Int
  genre : Option String
  author_name : Option String
  deriving Repr, DecidableEq

/-- Pydantic validation of the `genre` field of `schemas.BookCreate`
against the request-schema enum `schemas.Genres` (members `FICTION`,
`NONFICTION` with identical string values): pydantic runs
`Genres(value)`, which succeeds only on an exact (case-sensitive) match
of a member value. -/
def parseGenre (s : String) : Option String :=
  if s == "FICTION" || s == "NONFICTION" then some s else none

/-- `schemas.BookCreate.valid_published_year` (and identically
`BookBase`/`BookUpdate`): raise unless `1800 ≤ v ≤ current_year`, where
`current_year` is read from the clock at validation time and is passed
here explicitly. -/
def valid_published_year (current_year v : Int) : Except String Int :=
  if v < 1800 ∨ v > current_year then
    .error "The published year must be from 1800 to the current year"
  else .ok v

/-- Pydantic construction `schemas.BookCreate(**record)`: all four
fields are required; `title` must be non-empty after `strip()`;
`published_year` must pass `valid_published_year`; `genre` must parse as
a `schemas.Genres` member.  (`author_name` has no validator on
`BookCreate`.) -/
def parseBookCreate (current_year : Int) (r : RawBookRecord) :
    Option BookCreateDraft :=
  match r.title, r.published_year, r.genre, r.author_name with
  | some t, some y, some g, some a =>
    if pyStrip t == "" then none
    else if (valid_published_year current_year y).isOk = false then none
    else match parseGenre g with
      | none => none
      | some g2 => some ⟨t, y, g2, a⟩
  | _, _, _, _ => none

/-- The `books` row that `crud.create_book` inserts from a validated
draft: `genre` upper-cased, `author` the raw denormalized name string,
and — since the source never touches `DBAuthors` — `authors_id` left
unset (`NULL`). -/
def mkBookRow (st : DBState) (d : BookCreateDraft) : BookRow :=
  { id := st.nextBookId
    title := d.title
    author := d.author_name
    genre := some (pyUpper d.genre)
    published_year := some d.published_year
    authors_id := none }

/-- `crud.create_book`: builds a `DBBooks` row (the model-level
`validates` hook re-checks `published_year` against the clock at
construction time), then `add`/`commit`.  `fault` is true when the
storage layer raises during the commit; every exception is caught,
rolled back, and re-raised as `HTTPException(500, ...)`.  No `authors`
row is ever read or written. -/
def create_book (current_year : Int) (st : DBState) (d : BookCreateDraft)
    (fault : Bool) : Except PyErr BookRow × DBState :=
  if d.published_year < 1800 ∨ d.published_year > current_year then
    (.error (.http 500 "Error creating book: published_year out of range"), st)
  else if fault then
    (.error (.http 500 "Error creating book: storage fault"), st)
  else
    let row := mkBookRow st d
    (.ok row, { st with books := st.books ++ [row],
                        nextBookId := st.nextBookId + 1 })

/-- `crud.update_book` on a `dict(exclude_unset=True)` draft: reads each
field with `.get` (absent ⇒ `None`), upper-cases a string genre, and
runs one SQL
`UPDATE books SET title=…, author=…, genre=…, published_year=… WHERE id=… RETURNING …`.
If no row matches, the raised `HTTPException(404)` is caught by the
function's own blanket `except` and re-raised as a 500.  If a row
matches but `title` or `author` is bound as `NULL`, the NOT NULL
constraints of those columns make the statement fail, which is likewise
caught, rolled back, and re-raised as a 500.  Otherwise the matched row
is fully replaced by the bound values (nullable `genre` and
`published_year` do accept `NULL`); `authors_id` is untouched. -/
def update_book (st : DBState) (book_id : Nat) (d : BookUpdateDraft) :
    Except PyErr BookRow × DBState :=
  let genre_value := d.genre.map pyUpper
  match st.books.find? (fun b => b.id == book_id) with
  | none => (.error (.http 500 "Error updating book: 404: Book not found"), st)
  | some b =>
    match d.title, d.author_name with
    | some t, some a =>
      let b2 : BookRow :=
        { b with title := t, author := a, genre := genre_value,
                 published_year := d.published_year }
      (.ok b2,
       { st with books := st.books.map (fun x => if x.id == book_id then b2 else x) })
    | _, _ =>
      (.error (.http 500 "Error updating book: NOT NULL constraint failed"), st)

/-- `crud.delete_book`: `DELETE FROM books WHERE id = :id`, commit, and
report whether exactly one row was deleted. -/
def delete_book (st : DBState) (book_id : Nat) : Except PyErr Bool × DBState :=
  let remaining := st.books.filter (fun b => b.id != book_id)
  (.ok (st.books.length - remaining.length == 1), { st with books := remaining })

/-- `main.delete_book` (route `DELETE /books/{id}`): raises
`HTTPException(404)` when `crud.delete_book` reports no deletion, but
that raise happens inside the route's own `try`, whose blanket `except`
re-wraps every exception — the 404 included — as a 500. -/
def route_delete_book (st : DBState) (book_id : Nat) :
    Except PyErr String × DBState :=
  match delete_book st book_id with
  | (.ok true, st2) => (.ok "Book deleted successfully", st2)
  | (.ok false, st2) =>
    (.error (.http 500 "An error occurred while deleting the book: 404: Book not found"), st2)
  | (.error e, st2) =>
    (.error (.http 500 ("An error occurred while deleting the book: " ++ pyErrStr e)), st2)

/-- `main.bulk_import_books`, JSON path: per record, the pydantic
construction `BookCreate(**record)` sits inside a per-row
`try/except: continue`, so a record that fails validation is skipped;
the subsequent `crud.create_book` call sits OUTSIDE that `try`, so an
exception it raises propagates to the route's single outer `except` and
aborts the whole batch as one 500.  Each record carries its own storage
`fault` flag; books created before an aborting record stay committed. -/
def bulk_import_books (current_year : Int) :
    DBState → List (RawBookRecord × Bool) →
    Except PyErr (List BookRow) × DBState
  | st, [] => (.ok [], st)
  | st, (r, fault) :: rest =>
    match parseBookCreate current_year r with
    | none => bulk_import_books current_year st rest
    | some d =>
      match create_book current_year st d fault with
      | (.error e, st2) =>
        (.error (.http 500 ("An error occurred during bulk import: " ++ pyErrStr e)), st2)
      | (.ok b, st2) =>
        match bulk_import_books current_year st2 rest with
        | (.error e, st3) => (.error e, st3)
        | (.ok bs, st3) => (.ok (b :: bs), st3)

/-- `crud.create_user`: query for an existing row with the same
username; if one exists raise `HTTPException(400)` before any write
(this raise is not caught anywhere on the `/register` path); otherwise
hash the password (`auth.get_password_hash`, passed in abstractly since
the auth module is external plumbing) and insert the row. -/
def create_user (hashFn : String → String) (st : DBState)
    (username password : String) : Except PyErr UserRow × DBState :=
  match st.users.find? (fun u => u.username == username) with
  | some _ => (.error (.http 400 "Username already registered"), st)
  | none =>
    let u : UserRow := ⟨st.nextUserId, username, hashFn password⟩
    (.ok u, { st with users := st.users ++ [u], nextUserId := st.nextUserId + 1 })

/-- `crud.authenticate_user`: look the user up by username; return
`None` when there is no such user or when `auth.verify_password` (passed
in abstractly, as the auth module is external plumbing) rejects the
password against the stored hash; otherwise return the user row. -/
def authenticate_user (verify : String → String → Bool) (st : DBState)
    (username password : String) : Option UserRow :=
  match st.users.find? (fun u => u.username == username) with
  | none => none
  | some u => if verify password u.hashed_password then some u else none

/-! Concrete fixtures used by the closed evaluation theorems. -/

/-- The empty database. -/
def stEmpty : DBState := ⟨[], [], [], 1, 1, 1⟩

/-- A stored book row. -/
def bDune : BookRow := ⟨1, "Dune", "Frank Herbert", some "FICTION", some 1965, none⟩

/-- A database holding exactly `bDune`. -/
def stDune : DBState := ⟨[bDune], [], [], 2, 1, 1⟩

/-- A validated create draft. -/
def dDune : BookCreateDraft := ⟨"Dune", 1965, "FICTION", "Frank Herbert"⟩

/-- A second validated create draft with the same author name. -/
def dMessiah : BookCreateDraft := ⟨"Dune Messiah", 1969, "FICTION", "Frank Herbert"⟩

/-- An update draft carrying only `genre` (the partial-update case). -/
def uGenreOnly : BookUpdateDraft := ⟨none, none, some "NONFICTION", none⟩

/-- An update draft carrying every field. -/
def uFull : BookUpdateDraft := ⟨some "T", some 2000, some "FICTION", some "A"⟩

/-- A raw bulk-import record that parses as a valid `BookCreate`. -/
def rGood1 : RawBookRecord := ⟨some "Book A", some 1900, some "FICTION", some "Author A"⟩

/-- A second raw bulk-import record that parses as a valid `BookCreate`. -/
def rGood2 : RawBookRecord := ⟨some "Book B", some 1950, some "NONFICTION", some "Author B"⟩

/-- A raw bulk-import record with an out-of-range year (fails validation). -/
def rBadYear : RawBookRecord := ⟨some "Book C", some 3000, some "FICTION", some "Author C"⟩

/-- A stored book whose title sorts after the other fixture's. -/
def bZebra : BookRow := ⟨1, "Zebra", "Someone", some "FICTION", some 1950, none⟩

/-- A stored book whose title sorts before `bZebra`, stored after it. -/
def bApple : BookRow := ⟨2, "Apple", "Someone", some "FICTION", some 1960, none⟩

/-- A database holding `bZebra` then `bApple`, in that storage order. -/
def stTwo : DBState := ⟨[bZebra, bApple], [], [], 3, 1, 1⟩

/-- A stored user row. -/
def uAlice : UserRow := ⟨1, "alice", "HASH"⟩

/-- A database holding exactly the user `uAlice`. -/
def stUsers : DBState := ⟨[], [], [uAlice], 1, 1, 2⟩

/-! ## Theorems -/

/-- C1: the claim says that a filter criterion left unset is excluded
from the predicate, and that with every criterion unset
`get_filtered_books` agrees with `get_all_books` up to pagination.  The
code disagrees: with `genre` unset (the endpoint's default) the call
crashes on `None.upper()`, and with `genre` set but `title`/`author`
unset the bound pattern is the literal `%None%` and the year range is
`BETWEEN NULL AND NULL`, so the omitted criteria exclude every normal
row — here a catalog of one book yields the empty list instead of the
book. -/
theorem C1_code_eval :
    get_all_books stDune = [bDune] ∧
    get_filtered_books stDune none none none none none 0 10 =
      .error (.attributeError "NoneType object has no attribute upper") ∧
    get_filtered_books stDune none none (some "FICTION") none none 0 10 = .ok [] := by
  refine ⟨rfl, rfl, ?_⟩
  decide

/-- C2 counterexample: creating a book with a previously unseen author
name inserts no `authors` row at all (the claim demands exactly one),
and the inserted `books` row carries no author reference
(`authors_id = NULL`); a second sequential create with the same author
name still leaves the `authors` table empty. -/
theorem C2_counterexample :
    (create_book 2026 stEmpty dDune false).2.authors.length = 0 ∧
    (create_book 2026 stEmpty dDune false).2.books.map (fun b => b.authors_id) = [none] ∧
    (create_book 2026 (create_book 2026 stEmpty dDune false).2 dMessiah false).2.authors.length = 0 ∧
    (create_book 2026 (create_book 2026 stEmpty dDune false).2 dMessiah false).1.isOk = true := by
  decide

/-- C2 amended: a successful `create_book` inserts exactly one new
`books` row, which stores the author's raw name as a denormalized
string with a `NULL` `authors_id`; it never reads or writes the
`authors` table, for unseen and repeated author names alike. -/
theorem C2_amended (c : Int) (st : DBState) (d : BookCreateDraft)
    (h1 : 1800 ≤ d.published_year) (h2 : d.published_year ≤ c) :
    create_book c st d false =
      (.ok (mkBookRow st d),
       { st with books := st.books ++ [mkBookRow st d],
                 nextBookId := st.nextBookId + 1 }) ∧
    (mkBookRow st d).authors_id = none ∧
    (create_book c st d false).2.authors = st.authors := by
  have hcond : ¬(d.published_year < 1800 ∨ d.published_year > c) := by omega
  refine ⟨?_, rfl, ?_⟩ <;> simp [create_book, hcond]

/-- C2 witness: the amended statement evaluated on a concrete draft. -/
theorem C2_witness :
    create_book 2026 stEmpty dDune false =
      (.ok (mkBookRow stEmpty dDune),
       { stEmpty with books := stEmpty.books ++ [mkBookRow stEmpty dDune],
                      nextBookId := stEmpty.nextBookId + 1 }) ∧
    (mkBookRow stEmpty dDune).authors_id = none ∧
    (create_book 2026 stEmpty dDune false).2.authors = stEmpty.authors :=
  C2_amended 2026 stEmpty dDune (by decide) (by decide)

/-- C3: the claim says an update draft carrying only `genre` leaves
`title`, `published_year` and `author_name` at their stored values and
returns the merged record.  The code instead binds every absent field as
`NULL` in its `UPDATE ... SET` statement; with `title`/`author` being
NOT NULL columns the statement fails and the call returns an
`HTTPException(500)` with the database unchanged — the stored book keeps
its old genre and no updated record is returned. -/
theorem C3_code_eval :
    update_book stDune 1 uGenreOnly =
      (.error (.http 500 "Error updating book: NOT NULL constraint failed"), stDune) := by
  decide

/-- C4 counterexample: a two-record batch whose first record parses
fine but faults during persistence.  The claim says the faulting record
is skipped and the second record's book is returned; the code aborts the
whole batch with a 500 and persists nothing.  (Without the fault, the
same batch yields two books.) -/
theorem C4_counterexample :
    (bulk_import_books 2026 stEmpty [(rGood1, true), (rGood2, false)]).1 =
      .error (.http 500
        "An error occurred during bulk import: 500: Error creating book: storage fault") ∧
    (bulk_import_books 2026 stEmpty [(rGood1, true), (rGood2, false)]).2 = stEmpty ∧
    (bulk_import_books 2026 stEmpty [(rGood1, false), (rGood2, false)]).1.map
        List.length = .ok 2 := by
  decide

/-- C5: the claim says `update` and `delete` on a nonexistent id return
a not-found outcome distinct from a storage error.  The code raises
`HTTPException(404)` in both places but each sits inside a blanket
`except` that re-raises it as `HTTPException(500)` — the same kind as a
storage error.  The no-mutation half does hold: both calls leave the
(empty) database unchanged, and `crud.delete_book` itself merely reports
`False`. -/
theorem C5_code_eval :
    update_book stEmpty 1 uFull =
      (.error (.http 500 "Error updating book: 404: Book not found"), stEmpty) ∧
    delete_book stEmpty 1 = (.ok false, stEmpty) ∧
    route_delete_book stEmpty 1 =
      (.error (.http 500 "An error occurred while deleting the book: 404: Book not found"),
       stEmpty) := by
  decide

/-- Helper: with a storage fault, `create_book` always errors and leaves
the database unchanged, whichever branch raises. -/
theorem create_book_fault (c : Int) (st : DBState) (d : BookCreateDraft) :
    ∃ e, create_book c st d true = (.error e, st) := by
  unfold create_book
  split
  · exact ⟨_, rfl⟩
  · exact ⟨_, rfl⟩

/-- C4 amended: in a bulk import, a record that fails pydantic
validation is skipped wherever it sits in the batch, without affecting
the rest; but a record that parses and then fails to persist aborts the
whole batch with an error (leaving only previously committed records),
rather than being skipped as the claim states. -/
theorem C4_amended :
    (∀ (c : Int) (r : RawBookRecord) (fault : Bool), parseBookCreate c r = none →
       ∀ (st : DBState) (before after : List (RawBookRecord × Bool)),
       bulk_import_books c st (before ++ (r, fault) :: after) =
         bulk_import_books c st (before ++ after)) ∧
    (∀ (c : Int) (st : DBState) (r : RawBookRecord) (d : BookCreateDraft)
       (rest : List (RawBookRecord × Bool)), parseBookCreate c r = some d →
       ∃ e2, bulk_import_books c st ((r, true) :: rest) = (.error e2, st)) := by
  constructor
  · intro c r fault hp st before after
    induction before generalizing st with
    | nil => simp [bulk_import_books, hp]
    | cons hd tl ih =>
      obtain ⟨r2, f2⟩ := hd
      simp only [List.cons_append, bulk_import_books]
      cases hp2 : parseBookCreate c r2 with
      | none => exact ih st
      | some d2 =>
        dsimp only
        cases hc : create_book c st d2 f2 with
        | mk res st2 =>
          cases res with
          | error e => rfl
          | ok b =>
            dsimp only
            simp only [List.append_eq]
            rw [ih st2]
  · intro c st r d rest hp
    obtain ⟨e, he⟩ := create_book_fault c st d
    refine ⟨.http 500 ("An error occurred during bulk import: " ++ pyErrStr e), ?_⟩
    simp [bulk_import_books, hp, he]

/-- C4 witness: the amended statement on concrete batches — an
invalid-year record is skipped, and a faulting record aborts. -/
theorem C4_witness :
    bulk_import_books 2026 stEmpty ([] ++ (rBadYear, false) :: [(rGood2, false)]) =
      bulk_import_books 2026 stEmpty ([] ++ [(rGood2, false)]) ∧
    (∃ e2, bulk_import_books 2026 stEmpty [(rGood1, true)] = (.error e2, stEmpty)) :=
  ⟨C4_amended.1 2026 rBadYear false (by decide) stEmpty [] [(rGood2, false)],
   C4_amended.2 2026 stEmpty rGood1 ⟨"Book A", 1900, "FICTION", "Author A"⟩ [] (by decide)⟩

/-- C6 counterexample: with an unrecognized `sort_by` the claim
predicts a result sorted by title ascending; the code returns the rows
in storage order — here `Zebra` before `Apple`, which is not
title-ascending. -/
theorem C6_counterexample :
    retrieve_all_books stTwo (some "") (some "") (some "FICTION") (some 1900) (some 2000)
        0 10 (some "dropped; --") (some "asc") = .ok [bZebra, bApple] ∧
    bApple.title.data < bZebra.title.data ∧
    ([bZebra, bApple] : List BookRow) ≠ [bApple, bZebra] := by
  refine ⟨by decide, by decide, by decide⟩

/-- C6 amended: the listing route accepts `sort_by` and `order` but
never uses them — the result is identical for every pair of values,
recognized or not, and no value is ever forwarded to the query; but no
ordering (title-ascending or otherwise) is applied either: rows keep
storage order. -/
theorem C6_amended (st : DBState) (title author genre : Option String)
    (year_from year_to : Option Int) (skip limit : Nat)
    (sb1 o1 sb2 o2 : Option String) :
    retrieve_all_books st title author genre year_from year_to skip limit sb1 o1 =
      retrieve_all_books st title author genre year_from year_to skip limit sb2 o2 := rfl

/-- C7 counterexample: `fiction` matches the enumerated value `FICTION`
up to letter case, so the claim predicts acceptance; pydantic's
case-sensitive enum lookup rejects it, while the exact value is
accepted. -/
theorem C7_counterexample :
    parseGenre "fiction" = none ∧
    pyUpper "fiction" = "FICTION" ∧
    parseGenre "FICTION" = some "FICTION" := by
  decide

/-- C7 amended: genre validation succeeds exactly on the canonical
uppercase values `FICTION` and `NONFICTION` (case-sensitively, with no
normalization at validation); an accepted value is passed through
unchanged, and is already a fixed point of the upper-casing that
`create_book` later applies before storage. -/
theorem C7_amended :
    (∀ s : String, (parseGenre s).isSome = true ↔ (s = "FICTION" ∨ s = "NONFICTION")) ∧
    (∀ s g : String, parseGenre s = some g → g = s ∧ pyUpper g = g) := by
  constructor
  · intro s
    unfold parseGenre
    split
    next h =>
      simp only [Bool.or_eq_true, beq_iff_eq] at h
      simpa using h
    next h =>
      simp only [Bool.or_eq_true, beq_iff_eq] at h
      simpa using h
  · intro s g hg
    unfold parseGenre at hg
    split at hg
    next h =>
      simp only [Bool.or_eq_true, beq_iff_eq] at h
      have hsg := Option.some.inj hg
      subst hsg
      refine ⟨rfl, ?_⟩
      rcases h with h | h <;> subst h <;> decide
    next => exact absurd hg (by simp)

/-- C7 witness: the amended statement applied at the accepted value
`FICTION`. -/
theorem C7_witness : ("FICTION" : String) = "FICTION" ∧ pyUpper "FICTION" = "FICTION" :=
  C7_amended.2 "FICTION" "FICTION" (by decide)

/-- C8: `published_year` validation succeeds exactly on the closed
interval from 1800 to the current year (read at validation time), and
succeeds at both boundary values. -/
theorem C8_published_year_range (c : Int) :
    (∀ v : Int, valid_published_year c v = .ok v ↔ (1800 ≤ v ∧ v ≤ c)) ∧
    (1800 ≤ c →
      valid_published_year c 1800 = .ok 1800 ∧
      valid_published_year c c = .ok c) := by
  constructor
  · intro v
    unfold valid_published_year
    by_cases hv : v < 1800 ∨ v > c
    · rw [if_pos hv]
      constructor
      · intro heq; exact Except.noConfusion heq
      · intro hr; exfalso; rcases hv with h | h <;> omega
    · rw [if_neg hv]
      have h1 : ¬ v < 1800 := fun hx => hv (Or.inl hx)
      have h2 : ¬ v > c := fun hx => hv (Or.inr hx)
      exact ⟨fun _ => by constructor <;> omega, fun _ => rfl⟩
  · intro hc
    have hA : ¬((1800 : Int) < 1800 ∨ (1800 : Int) > c) := by
      rintro (h | h) <;> omega
    have hB : ¬(c < 1800 ∨ c > c) := by
      rintro (h | h) <;> omega
    unfold valid_published_year
    rw [if_neg hA, if_neg hB]
    exact ⟨rfl, rfl⟩

/-- C8 witness: both boundaries accepted for the current year 2026. -/
theorem C8_witness :
    valid_published_year 2026 1800 = .ok 1800 ∧
    valid_published_year 2026 2026 = .ok 2026 :=
  (C8_published_year_range 2026).2 (by decide)

/-- C9: `authenticate_user` returns the same failure signal — `None` —
for a nonexistent username and for an existing username whose password
fails verification, whatever the password verifier does: the two return
values are equal, so nothing in them distinguishes the cases. -/
theorem C9_auth_failure_indistinguishable
    (verify : String → String → Bool) (st : DBState)
    (u1 p1 u2 p2 : String) (u : UserRow)
    (h1 : st.users.find? (fun x => x.username == u1) = none)
    (h2 : st.users.find? (fun x => x.username == u2) = some u)
    (hv : verify p2 u.hashed_password = false) :
    authenticate_user verify st u1 p1 = none ∧
    authenticate_user verify st u2 p2 = none ∧
    authenticate_user verify st u1 p1 = authenticate_user verify st u2 p2 := by
  simp [authenticate_user, h1, h2, hv]

/-- C9 witness: a concrete store with one user, an unknown username
versus a wrong password under an always-rejecting verifier. -/
theorem C9_witness :
    authenticate_user (fun _ _ => false) stUsers "bob" "pw" = none ∧
    authenticate_user (fun _ _ => false) stUsers "alice" "wrong" = none ∧
    authenticate_user (fun _ _ => false) stUsers "bob" "pw" =
      authenticate_user (fun _ _ => false) stUsers "alice" "wrong" :=
  C9_auth_failure_indistinguishable (fun _ _ => false) stUsers "bob" "pw" "alice" "wrong"
    uAlice (by decide) (by decide) rfl

/-- C10: when the username already exists, `create_user` fails with the
conflict error raised by its pre-check read, and the whole database
state is returned unchanged — the failing path writes nothing. -/
theorem C10_duplicate_user_conflict (hashFn : String → String) (st : DBState)
    (username password : String) (u : UserRow)
    (h : st.users.find? (fun x => x.username == username) = some u) :
    create_user hashFn st username password =
      (.error (.http 400 "Username already registered"), st) := by
  simp [create_user, h]

/-- C10 witness: registering `alice` again against a store already
holding `alice`. -/
theorem C10_witness :
    create_user (fun p => p) stUsers "alice" "pw" =
      (.error (.http 400 "Username already registered"), stUsers) :=
  C10_duplicate_user_conflict (fun p => p) stUsers "alice" "pw" uAlice (by decide)

end BookMgmt
